import Mathlib

/-!
Shallow embedding of `src/skills/gtk-ui-ux-engineer/examples/application.c`,
a GTK4/libadwaita application example.  Toolkit calls are modelled as
effects appended to a trace, and the toolkit-held per-application data the
code manipulates (the action map, the accelerator map, the style providers,
the presented windows) is modelled as an explicit `AppState` threaded
through each function.  The outcome of an external file load (the CSS file,
the UI description file) is a Boolean parameter supplied by the
environment; the C code never inspects such an outcome, and the embedding
reflects that by taking the flag as an argument.
-/

/-- Observable toolkit calls made by the example, in program order. -/
inductive Effect where
  | chainUpStartup
  | addAction (name : String)
  | setAccelsForAction (detailedName : String) (accels : List String)
  | cssProviderNew
  | cssLoadFromPath (path : String) (errorArgNull : Bool)
  | addProviderForDisplay (priority : Nat)
  | printMsg (msg : String)
  | builderNewFromFile (path : String)
  | builderGetObject (objectId : String)
  | windowSetApplication
  | windowPresent
  | objectUnref
  | fileGetPath (path : String)
  | gfree
deriving DecidableEq, Repr

/-- Toolkit-held application data that the example's calls populate:
registered action names, accelerator bindings, style-provider paths added
to the display, and the number of windows presented. -/
structure AppState where
  actions : List String
  accels : List (String × List String)
  cssProviders : List String
  windowsPresented : Nat
deriving DecidableEq, Repr

/-- The application state before `startup` runs: nothing registered yet. -/
def initState : AppState := ⟨[], [], [], 0⟩

/-- References to the four static callback functions of the file. -/
inductive Handler where
  | new_window
  | preferences
  | shortcuts
  | about
deriving DecidableEq, Repr

/-- One `GActionEntry` row: `{ name, activate, parameter_type, state,
change_state }`; in the source all fields but the first two are NULL. -/
structure GActionEntry where
  name : String
  activate : Handler
  parameter_type : Option String
  entryState : Option String
  change_state : Option String
deriving Repr

/-- `app_entries` (application.c lines 42-47). -/
def app_entries : List GActionEntry :=
  [⟨"new-window", Handler.new_window, none, none, none⟩,
   ⟨"preferences", Handler.preferences, none, none, none⟩,
   ⟨"shortcuts", Handler.shortcuts, none, none, none⟩,
   ⟨"about", Handler.about, none, none, none⟩]

/-- `on_new_window` (lines 24-27): casts `user_data` and prints one fixed
message.  The action, parameter and user-data arguments are never
inspected, so they are polymorphic here. -/
def on_new_window {A P U : Type} (action : A) (parameter : P)
    (user_data : U) (s : AppState) : AppState × List Effect :=
  (s, [Effect.printMsg "New window activated\n"])

/-- `on_preferences` (lines 29-31): prints one fixed message. -/
def on_preferences {A P U : Type} (action : A) (parameter : P)
    (user_data : U) (s : AppState) : AppState × List Effect :=
  (s, [Effect.printMsg "Preferences activated\n"])

/-- `on_shortcuts` (lines 33-35): prints one fixed message. -/
def on_shortcuts {A P U : Type} (action : A) (parameter : P)
    (user_data : U) (s : AppState) : AppState × List Effect :=
  (s, [Effect.printMsg "Keyboard shortcuts activated\n"])

/-- `on_about` (lines 37-39): prints one fixed message. -/
def on_about {A P U : Type} (action : A) (parameter : P)
    (user_data : U) (s : AppState) : AppState × List Effect :=
  (s, [Effect.printMsg "About activated\n"])

/-- Dispatch from an entry's handler reference to the callback it names. -/
def Handler.dispatch {A P U : Type} : Handler →
    A → P → U → AppState → AppState × List Effect
  | Handler.new_window => on_new_window
  | Handler.preferences => on_preferences
  | Handler.shortcuts => on_shortcuts
  | Handler.about => on_about

/-- `g_action_map_add_action_entries`: registers each entry's action name
on the application's action map, in entry order. -/
def g_action_map_add_action_entries (entries : List GActionEntry)
    (s : AppState) : AppState × List Effect :=
  ({ s with actions := s.actions ++ entries.map (fun e => e.name) },
   entries.map (fun e => Effect.addAction e.name))

/-- `gtk_application_set_accels_for_action`: records one accelerator
binding for a detailed action name. -/
def gtk_application_set_accels_for_action (detailedName : String)
    (accels : List String) (s : AppState) : AppState × List Effect :=
  ({ s with accels := s.accels ++ [(detailedName, accels)] },
   [Effect.setAccelsForAction detailedName accels])

/-- `GTK_STYLE_PROVIDER_PRIORITY_APPLICATION` = 600. -/
def GTK_STYLE_PROVIDER_PRIORITY_APPLICATION : Nat := 600

/-- `load_css` (lines 50-62): creates a provider, loads `style.css` by
path with the error out-parameter passed as NULL (recorded as
`errorArgNull = true`), and adds the provider to the default display at
application priority.  `cssLoadOk` is the environment's load outcome; the
body never uses it, exactly as the C code has no branch on the result. -/
def load_css (cssLoadOk : Bool) (s : AppState) : AppState × List Effect :=
  ({ s with cssProviders := s.cssProviders ++ ["style.css"] },
   [Effect.cssProviderNew,
    Effect.cssLoadFromPath "style.css" true,
    Effect.addProviderForDisplay GTK_STYLE_PROVIDER_PRIORITY_APPLICATION])

/-- `set_accels` (lines 65-77): binds three accelerators, one call per
detailed action name, in source order. -/
def set_accels (s : AppState) : AppState × List Effect :=
  let r1 := gtk_application_set_accels_for_action
    "app.new-window" ["<Primary>n"] s
  let r2 := gtk_application_set_accels_for_action
    "app.preferences" ["<Primary>comma"] r1.1
  let r3 := gtk_application_set_accels_for_action
    "app.shortcuts" ["<Primary>question"] r2.1
  (r3.1, r1.2 ++ r2.2 ++ r3.2)

/-- Chain-up to the parent class's `startup` (line 85); the parent's
behaviour is toolkit code, modelled as a single opaque effect. -/
def adw_parent_startup (s : AppState) : AppState × List Effect :=
  (s, [Effect.chainUpStartup])

/-- `example_app_startup` (lines 80-102): chain up, add the action
entries, set the accelerators, load the CSS, print. -/
def example_app_startup (cssLoadOk : Bool) (s : AppState) :
    AppState × List Effect :=
  let r0 := adw_parent_startup s
  let r1 := g_action_map_add_action_entries app_entries r0.1
  let r2 := set_accels r1.1
  let r3 := load_css cssLoadOk r2.1
  (r3.1, r0.2 ++ r1.2 ++ r2.2 ++ r3.2
    ++ [Effect.printMsg "Application started\n"])

/-- `example_app_activate` (lines 105-117): builds `window.ui`, gets the
object `example_window`, attaches it to the application, presents it,
unrefs the builder, prints.  `uiLoadOk` is the environment's load outcome
for the UI file; the body never uses it. -/
def example_app_activate (uiLoadOk : Bool) (s : AppState) :
    AppState × List Effect :=
  ({ s with windowsPresented := s.windowsPresented + 1 },
   [Effect.builderNewFromFile "window.ui",
    Effect.builderGetObject "example_window",
    Effect.windowSetApplication,
    Effect.windowPresent,
    Effect.objectUnref,
    Effect.printMsg "Window activated\n"])

/-- One iteration of the file loop in `example_app_open` (lines 126-130):
get the file's path, print it, free it. -/
def open_file_trace (path : String) : List Effect :=
  [Effect.fileGetPath path,
   Effect.printMsg ("Opening file: " ++ path ++ "\n"),
   Effect.gfree]

/-- `example_app_open` (lines 120-134): loops over the files in index
order printing each path, then calls `example_app_activate`.  Each file is
represented by its path; `hint` is never inspected. -/
def example_app_open (files : List String) (hint : String)
    (uiLoadOk : Bool) (s : AppState) : AppState × List Effect :=
  let r := example_app_activate uiLoadOk s
  (r.1, (files.map open_file_trace).flatten ++ r.2)

/-- Extracts the action name from an `addAction` effect. -/
def addActionName : Effect → Option String
  | Effect.addAction n => some n
  | _ => none

/-- Extracts the binding from a `setAccelsForAction` effect. -/
def accelBinding : Effect → Option (String × List String)
  | Effect.setAccelsForAction n a => some (n, a)
  | _ => none

/-- Extracts the message from a `printMsg` effect. -/
def printedMsg : Effect → Option String
  | Effect.printMsg m => some m
  | _ => none

/-- The prints of the per-file loop are, in order, the path of each file
in index order. -/
theorem flatten_open_file_prints (files : List String) :
    ((files.map open_file_trace).flatten).filterMap printedMsg
      = files.map (fun p => "Opening file: " ++ p ++ "\n") := by
  induction files with
  | nil => rfl
  | cons p rest ih =>
      simp [open_file_trace, printedMsg, ih]

/-- The per-file loop presents no window. -/
theorem flatten_open_file_no_present (files : List String) :
    ((files.map open_file_trace).flatten).count Effect.windowPresent = 0 := by
  induction files with
  | nil => rfl
  | cons p rest ih =>
      simp [open_file_trace, List.count_cons, ih, List.count_append]

/-- Claim C1: during startup exactly the four actions `new-window`,
`preferences`, `shortcuts` and `about` are registered on the application's
action map, and the code registers no other action: the registered names
grow by exactly that list, and the `addAction` effects of the startup
trace are exactly those four, in order. -/
theorem startup_registers_exactly_four_actions
    (cssLoadOk : Bool) (s : AppState) :
    (example_app_startup cssLoadOk s).1.actions
      = s.actions ++ ["new-window", "preferences", "shortcuts", "about"]
    ∧ (example_app_startup cssLoadOk s).2.filterMap addActionName
      = ["new-window", "preferences", "shortcuts", "about"] := by
  constructor <;> rfl

/-- Claim C2, counterexample: starting from the initial state, startup
binds no accelerator to the `about` action — neither the detailed name
`app.about` nor the bare name `about` occurs among the bound action names
in the resulting accelerator map or in the `setAccelsForAction` effects of
the startup trace — so not every name in the exposed four-action set gets
an accelerator bound by the helper. -/
theorem about_gets_no_accel :
    "app.about" ∉ (example_app_startup true initState).1.accels.map Prod.fst
    ∧ "about" ∉ (example_app_startup true initState).1.accels.map Prod.fst
    ∧ "app.about" ∉
        ((example_app_startup true initState).2.filterMap accelBinding).map
          Prod.fst := by
  refine ⟨?_, ?_, ?_⟩ <;> decide

/-- Claim C2 as amended: the accelerator-binding helper binds a keyboard
accelerator string during startup to each of `new-window`, `preferences`
and `shortcuts` (under their `app.`-prefixed detailed names), and binds
none to `about`: the accelerator map grows by exactly those three
bindings, and `app.about` is not among them. -/
theorem set_accels_binds_three_of_four (cssLoadOk : Bool) (s : AppState) :
    (example_app_startup cssLoadOk s).1.accels
      = s.accels ++ [("app.new-window", ["<Primary>n"]),
                     ("app.preferences", ["<Primary>comma"]),
                     ("app.shortcuts", ["<Primary>question"])]
    ∧ (example_app_startup cssLoadOk s).2.filterMap accelBinding
      = [("app.new-window", ["<Primary>n"]),
         ("app.preferences", ["<Primary>comma"]),
         ("app.shortcuts", ["<Primary>question"])]
    ∧ "app.about" ∉
        ((example_app_startup cssLoadOk s).2.filterMap accelBinding).map
          Prod.fst := by
  have h2 : (example_app_startup cssLoadOk s).2.filterMap accelBinding
      = [("app.new-window", ["<Primary>n"]),
         ("app.preferences", ["<Primary>comma"]),
         ("app.shortcuts", ["<Primary>question"])] := rfl
  refine ⟨?_, h2, ?_⟩
  · simp [example_app_startup, set_accels, load_css, adw_parent_startup,
      gtk_application_set_accels_for_action, g_action_map_add_action_entries]
  · rw [h2]
    decide

/-- Claim C3: each of the four action callbacks is a total function — for
every action, parameter and user-data argument (of any type) and every
application state it returns — its only emitted effect is printing its one
fixed debug message, and it returns the application state unchanged. -/
theorem callbacks_print_only_and_keep_state :
    (∀ (A P U : Type) (a : A) (p : P) (u : U) (s : AppState),
        on_new_window a p u s
          = (s, [Effect.printMsg "New window activated\n"]))
    ∧ (∀ (A P U : Type) (a : A) (p : P) (u : U) (s : AppState),
        on_preferences a p u s
          = (s, [Effect.printMsg "Preferences activated\n"]))
    ∧ (∀ (A P U : Type) (a : A) (p : P) (u : U) (s : AppState),
        on_shortcuts a p u s
          = (s, [Effect.printMsg "Keyboard shortcuts activated\n"]))
    ∧ (∀ (A P U : Type) (a : A) (p : P) (u : U) (s : AppState),
        on_about a p u s
          = (s, [Effect.printMsg "About activated\n"])) :=
  ⟨fun _ _ _ _ _ _ _ => rfl, fun _ _ _ _ _ _ _ => rfl,
   fun _ _ _ _ _ _ _ => rfl, fun _ _ _ _ _ _ _ => rfl⟩

/-- Claim C4: on every activation, whatever the load outcome and prior
state, the activate handler emits — in this order — the load of the UI
file `window.ui`, the lookup of the object `example_window`, the
attachment of that window to the application, and its presentation; and a
window is presented (the presented-window count increases by one). -/
theorem activate_loads_builds_attaches_presents
    (uiLoadOk : Bool) (s : AppState) :
    (example_app_activate uiLoadOk s).2
      = [Effect.builderNewFromFile "window.ui",
         Effect.builderGetObject "example_window",
         Effect.windowSetApplication,
         Effect.windowPresent,
         Effect.objectUnref,
         Effect.printMsg "Window activated\n"]
    ∧ (example_app_activate uiLoadOk s).1.windowsPresented
      = s.windowsPresented + 1 :=
  ⟨rfl, rfl⟩

/-- Claim C5: for every file-open invocation with a list of files, the
open handler's trace is the per-file loop trace followed by the activate
trace; the messages printed by the loop are exactly the path of each file
in list order; and afterwards the activate handler has run, so the final
state is the activate handler's state and a window has been presented. -/
theorem open_prints_each_file_then_activates
    (files : List String) (hint : String) (uiLoadOk : Bool) (s : AppState) :
    (example_app_open files hint uiLoadOk s).2
      = (files.map open_file_trace).flatten
        ++ (example_app_activate uiLoadOk s).2
    ∧ ((files.map open_file_trace).flatten).filterMap printedMsg
      = files.map (fun p => "Opening file: " ++ p ++ "\n")
    ∧ (example_app_open files hint uiLoadOk s).1
      = (example_app_activate uiLoadOk s).1
    ∧ (example_app_open files hint uiLoadOk s).1.windowsPresented
      = s.windowsPresented + 1 :=
  ⟨rfl, flatten_open_file_prints files, rfl, rfl⟩

/-- Claim C6: whatever the load outcome and prior state, the startup trace
decomposes as the parent-class chain-up, then the action registrations,
then the three accelerator bindings, then the CSS sequence that loads the
stylesheet `style.css` by path, then the final print — so the stylesheet
load happens during startup and strictly after the chain-up, the action
registration and the accelerator setup. -/
theorem startup_loads_css_after_chainup_actions_accels
    (cssLoadOk : Bool) (s : AppState) :
    (example_app_startup cssLoadOk s).2
      = [Effect.chainUpStartup]
        ++ [Effect.addAction "new-window", Effect.addAction "preferences",
            Effect.addAction "shortcuts", Effect.addAction "about"]
        ++ [Effect.setAccelsForAction "app.new-window" ["<Primary>n"],
            Effect.setAccelsForAction "app.preferences" ["<Primary>comma"],
            Effect.setAccelsForAction "app.shortcuts" ["<Primary>question"]]
        ++ [Effect.cssProviderNew,
            Effect.cssLoadFromPath "style.css" true,
            Effect.addProviderForDisplay 600]
        ++ [Effect.printMsg "Application started\n"]
    ∧ (example_app_startup cssLoadOk s).1.cssProviders
      = s.cssProviders ++ ["style.css"] :=
  ⟨rfl, rfl⟩

/-- Claim C7: neither file load is checked for failure.  The CSS load
passes a NULL error out-parameter (`errorArgNull = true` in the recorded
effect), and for any two load outcomes of the environment, `load_css`,
`example_app_activate`, `example_app_startup` and `example_app_open`
produce the identical state and the identical trace — the same control
path and final state whether or not the files load successfully. -/
theorem file_loads_unchecked (ok1 ok2 : Bool) (s : AppState)
    (files : List String) (hint : String) :
    load_css ok1 s = load_css ok2 s
    ∧ example_app_activate ok1 s = example_app_activate ok2 s
    ∧ example_app_startup ok1 s = example_app_startup ok2 s
    ∧ example_app_open files hint ok1 s = example_app_open files hint ok2 s
    ∧ Effect.cssLoadFromPath "style.css" true ∈ (load_css ok1 s).2 := by
  refine ⟨rfl, rfl, rfl, rfl, ?_⟩
  simp [load_css]

/-- Claim C9: whatever the load outcome and prior state, startup makes
exactly three accelerator bindings, in order `app.new-window` to
`<Primary>n`, `app.preferences` to `<Primary>comma` and `app.shortcuts` to
`<Primary>question`, and binds no accelerator to the about action: the
accelerator map grows by exactly those three pairs and no bound name is
`app.about` or `about` among the additions. -/
theorem startup_makes_exactly_three_accel_bindings
    (cssLoadOk : Bool) (s : AppState) :
    (example_app_startup cssLoadOk s).2.filterMap accelBinding
      = [("app.new-window", ["<Primary>n"]),
         ("app.preferences", ["<Primary>comma"]),
         ("app.shortcuts", ["<Primary>question"])]
    ∧ (example_app_startup cssLoadOk s).1.accels
      = s.accels ++ [("app.new-window", ["<Primary>n"]),
                     ("app.preferences", ["<Primary>comma"]),
                     ("app.shortcuts", ["<Primary>question"])]
    ∧ (((example_app_startup cssLoadOk s).2.filterMap accelBinding).map
          Prod.fst).all (fun n => n ≠ "app.about" ∧ n ≠ "about") := by
  have h1 : (example_app_startup cssLoadOk s).2.filterMap accelBinding
      = [("app.new-window", ["<Primary>n"]),
         ("app.preferences", ["<Primary>comma"]),
         ("app.shortcuts", ["<Primary>question"])] := rfl
  refine ⟨h1, ?_, ?_⟩
  · simp [example_app_startup, set_accels, load_css, adw_parent_startup,
      gtk_application_set_accels_for_action, g_action_map_add_action_entries]
  · rw [h1]
    decide

/-- Claim C10: the open handler causes exactly one activation per
invocation regardless of the number of files — exactly one window is
presented in its trace, and the presented-window count increases by
exactly one — and with an empty file list no per-file output occurs: the
trace is exactly the activate trace. -/
theorem open_activates_exactly_once
    (files : List String) (hint : String) (uiLoadOk : Bool) (s : AppState) :
    (example_app_open files hint uiLoadOk s).2.count Effect.windowPresent = 1
    ∧ (example_app_open files hint uiLoadOk s).1.windowsPresented
      = s.windowsPresented + 1
    ∧ (example_app_open [] hint uiLoadOk s).2
      = (example_app_activate uiLoadOk s).2 := by
  refine ⟨?_, rfl, rfl⟩
  have hact : (example_app_activate uiLoadOk s).2.count
      Effect.windowPresent = 1 := rfl
  calc (example_app_open files hint uiLoadOk s).2.count Effect.windowPresent
      = ((files.map open_file_trace).flatten).count Effect.windowPresent
        + (example_app_activate uiLoadOk s).2.count Effect.windowPresent := by
        simp [example_app_open, List.count_append]
    _ = 0 + 1 := by rw [flatten_open_file_no_present files, hact]
    _ = 1 := by simp
